import Mathlib

/-!
Verification development for the credit-ledger and subscription logic of the
mail-scanning web application.  The TypeScript handlers are embedded as pure
Lean functions over an explicit Firestore user-document state; JavaScript
`Date` values are modelled at day granularity as integers counting days since
1970-01-01, with calendar arithmetic (`getMonth`, `setMonth`) implemented via
the standard civil-calendar conversion so that it matches ECMAScript `Date`
normalisation (month overflow carries into the year, day overflow carries into
the following month).
-/

namespace Letter

/-- Days since 1970-01-01 of the civil date `(y, m, d)` with `m` 1-based.
The formula is linear in `d`, so out-of-range days normalise exactly the way
an ECMAScript `Date` does.  Standard days-from-civil algorithm. -/
def daysFromCivil (y m d : Int) : Int :=
  let y2 := if m ≤ 2 then y - 1 else y
  let era := Int.fdiv y2 400
  let yoe := y2 - era * 400
  let mp := if 2 < m then m - 3 else m + 9
  let doy := Int.fdiv (153 * mp + 2) 5 + d - 1
  let doe := yoe * 365 + Int.fdiv yoe 4 - Int.fdiv yoe 100 + doy
  era * 146097 + doe - 719468

/-- Inverse of `daysFromCivil`: the civil date `(year, month, day)` (month
1-based) of a day count.  Standard civil-from-days algorithm. -/
def civilFromDays (z0 : Int) : Int × Int × Int :=
  let z := z0 + 719468
  let era := Int.fdiv z 146097
  let doe := z - era * 146097
  let yoe := Int.fdiv (doe - Int.fdiv doe 1460 + Int.fdiv doe 36524 - Int.fdiv doe 146096) 365
  let y := yoe + era * 400
  let doy := doe - (365 * yoe + Int.fdiv yoe 4 - Int.fdiv yoe 100)
  let mp := Int.fdiv (5 * doy + 2) 153
  let d := doy - Int.fdiv (153 * mp + 2) 5 + 1
  let m := if mp < 10 then mp + 3 else mp - 9
  (if m ≤ 2 then y + 1 else y, m, d)

/-- JavaScript `date.getFullYear()`. -/
def getFullYear (t : Int) : Int := (civilFromDays t).1

/-- JavaScript `date.getMonth()` (0-based month). -/
def getMonth (t : Int) : Int := (civilFromDays t).2.1 - 1

/-- JavaScript `date.getDate()` (day of month). -/
def getDate (t : Int) : Int := (civilFromDays t).2.2

/-- JavaScript `date.setMonth(m)` (0-based month, may be out of range; the
year carries and the day of month is preserved with ECMAScript overflow). -/
def setMonthJs (t m : Int) : Int :=
  daysFromCivil (getFullYear t + Int.fdiv m 12) (Int.fmod m 12 + 1) (getDate t)

/-- The idiom `d.setMonth(d.getMonth() + n)` used throughout the handlers. -/
def addMonths (t n : Int) : Int := setMonthJs t (getMonth t + n)

/-- JavaScript `x || 0` on a possibly missing numeric field (0 is falsy, and
the default is 0, so this coincides with `Option.getD 0`). -/
def orZero (o : Option Int) : Int := o.getD 0

/-- JavaScript `s || d` on a possibly missing string field: the empty string
is falsy and falls through to the default. -/
def jsOrS (o : Option String) (d : String) : String :=
  match o with
  | none => d
  | some s => if s = "" then d else s

/-- One element of a `creditHistory` array.  `utils/creditSystem.ts` calls the
amount field `totalCredits` while the webhook variants call it `credits`; both
carry the signed credit movement of the entry, modelled here as `amount`. -/
structure HistEntry where
  date : Int
  amount : Int
  htype : String
deriving Repr, DecidableEq

/-- The `lastCreditGrant` bookkeeping object written by the second
`app/api/webhooks/stripe/route.ts` variant. -/
structure LastGrant where
  date : Int
  freeCredits : Int
  bonusCredits : Int
  totalCredits : Int
deriving Repr, DecidableEq

/-- A Firestore `users/{id}` document restricted to the fields the credit and
subscription handlers read or write.  Every handler operates on this one shared
document; fields a handler does not mention in its update map are preserved.
`none` models an absent field. -/
structure UserDoc where
  credits : Option Int := none
  planType : Option String := none
  stripeSubscriptionId : Option String := none
  stripeCustomerId : Option String := none
  subscriptionStart : Option Int := none
  subscriptionEndDate : Option Int := none
  lastMonthlyCredit : Option Int := none
  lastMonthlyGrant : Option Int := none
  nextCreditDate : Option Int := none
  lastCreditGrant : Option LastGrant := none
  creditHistory : List HistEntry := []
deriving Repr, DecidableEq

/-- Firestore `arrayUnion(...es)`: each element is appended at the end of the
array unless an equal element is already present. -/
def jsArrayUnion (arr es : List HistEntry) : List HistEntry :=
  es.foldl (fun acc e => if e ∈ acc then acc else acc ++ [e]) arr

/-- Sum of the signed amounts of a credit-history array. -/
def sumHist (l : List HistEntry) : Int :=
  (l.map HistEntry.amount).sum

/-- The ledger invariant of the specification: the cached balance equals the
sum of the recorded history entries. -/
def ledgerInv (u : UserDoc) : Prop :=
  orZero u.credits = sumHist u.creditHistory

/-- Projection out of the `Except` results of the throwing webhook handlers. -/
def exceptGetD (e : Except String UserDoc) (d : UserDoc) : UserDoc :=
  match e with
  | .ok u => u
  | .error _ => d

/-- The Stripe price-id environment variables consulted by the plan tables. -/
structure Env where
  monthlyPriceId : Option String := none
  semiannualPriceId : Option String := none
  annualPriceId : Option String := none

/-- JavaScript truthiness of `process.env.X` (unset or empty is falsy). -/
def envSet (o : Option String) : Bool :=
  match o with
  | none => false
  | some s => s ≠ ""

namespace CreditsUtil

/-- Result shape of `getUserCredits` in `src/utils/credits.ts`. -/
structure UserCredits where
  credits : Int
  planType : String
  subscriptionEndDate : Int
deriving Repr, DecidableEq

/-- The fallback `new Date("2100-01-01")` of `getUserCredits`. -/
def date2100 : Int := daysFromCivil 2100 1 1

/-- `getUserCredits` from `src/utils/credits.ts`: `none` when the user
document does not exist, otherwise the defaulted projection of the stored
fields. -/
def getUserCredits (doc : Option UserDoc) : Option UserCredits :=
  match doc with
  | none => none
  | some u =>
      some { credits := orZero u.credits,
             planType := jsOrS u.planType "free",
             subscriptionEndDate := u.subscriptionEndDate.getD date2100 }

/-- `isSubscriptionActive` from `src/utils/credits.ts`, with the current time
passed explicitly in place of `new Date()`. -/
def isSubscriptionActive (doc : Option UserDoc) (now : Int) : Bool :=
  match getUserCredits doc with
  | none => false
  | some uc =>
      if uc.planType = "free" then false
      else decide (now < uc.subscriptionEndDate)

/-- `debitCredits` from `src/utils/credits.ts`: read through `getUserCredits`,
reject when the read balance is below the amount, otherwise apply the atomic
`increment(-amount)` to the stored field. -/
def debitCredits (doc : Option UserDoc) (amount : Int) : Bool × Option UserDoc :=
  match doc with
  | none => (false, none)
  | some u =>
      match getUserCredits (some u) with
      | none => (false, some u)
      | some uc =>
          if uc.credits < amount then (false, some u)
          else (true, some { u with credits := some (orZero u.credits - amount) })

/-- `addCredits` from `src/utils/credits.ts`: unconditional `increment`. -/
def addCredits (doc : Option UserDoc) (amount : Int) : Bool × Option UserDoc :=
  match doc with
  | none => (false, none)
  | some u => (true, some { u with credits := some (orZero u.credits + amount) })

end CreditsUtil

namespace CreditSystem

/-- Constants of `CREDIT_SYSTEM` in `utils/creditSystem.ts`. -/
def freeMonthlyCredits : Int := 5

/-- Bonus part of the monthly grant in `utils/creditSystem.ts`. -/
def bonusMonthlyCredits : Int := 20

/-- `isEligibleForMonthlyCredits` from `utils/creditSystem.ts`: eligible when
no grant was recorded yet, or at least 28 whole days have passed. -/
def isEligibleForMonthlyCredits (lastMonthlyGrant : Option Int) (now : Int) : Bool :=
  match lastMonthlyGrant with
  | none => true
  | some l => decide (28 ≤ now - l)

/-- `grantMonthlyCredits` from `utils/creditSystem.ts`: checks eligibility,
adds 5 free (plus 20 bonus on premium) credits and appends one
`monthly_grant` history entry (plain array spread, not `arrayUnion`). -/
def grantMonthlyCredits (u : UserDoc) (now : Int) : Bool × UserDoc :=
  if isEligibleForMonthlyCredits u.lastMonthlyGrant now then
    let bonus : Int := if jsOrS u.planType "free" = "premium" then bonusMonthlyCredits else 0
    let total := freeMonthlyCredits + bonus
    (true, { u with credits := some (orZero u.credits + total),
                    lastMonthlyGrant := some now,
                    creditHistory := u.creditHistory ++ [⟨now, total, "monthly_grant"⟩] })
  else (false, u)

/-- `deductCredits` from `utils/creditSystem.ts`: rejects when the current
balance is below the amount, otherwise writes back the decremented balance and
appends one `usage` history entry of `-amount`. -/
def deductCredits (u : UserDoc) (amount now : Int) : Bool × UserDoc :=
  if orZero u.credits < amount then (false, u)
  else
    (true, { u with credits := some (orZero u.credits - amount),
                    creditHistory := u.creditHistory ++ [⟨now, -amount, "usage"⟩] })

end CreditSystem

namespace StripeV1

/-- Plan entry of the first `getPlanConfig` in
`app/api/webhook/stripe/route.ts`. -/
structure PlanConfig where
  planType : String
  credits : Int
  durationMonths : Int
deriving Repr, DecidableEq

/-- First `getPlanConfig` of `app/api/webhook/stripe/route.ts` (lines 14-51):
100 / 600 / 1200 credits for 1 / 6 / 12 months.  The JS object literal is
keyed by the env price ids, so when ids collide the last insertion (annual)
wins; unset or empty env variables contribute no entry. -/
def getPlanConfig (env : Env) (priceId : String) : Option PlanConfig :=
  if envSet env.annualPriceId && env.annualPriceId == some priceId then
    some ⟨"premium", 1200, 12⟩
  else if envSet env.semiannualPriceId && env.semiannualPriceId == some priceId then
    some ⟨"premium", 600, 6⟩
  else if envSet env.monthlyPriceId && env.monthlyPriceId == some priceId then
    some ⟨"premium", 100, 1⟩
  else none

/-- First `handleSubscriptionPurchase` of `app/api/webhook/stripe/route.ts`
(lines 181-324): look up the plan, compute `now + durationMonths` with
`setMonth`, and overwrite plan type, credits, end date and Stripe references.
No history entry is written. -/
def handleSubscriptionPurchase (env : Env) (priceId subId custId : String)
    (u : UserDoc) (now : Int) : Except String UserDoc :=
  match getPlanConfig env priceId with
  | none => .error "Unknown price ID"
  | some cfg =>
      .ok { u with planType := some cfg.planType,
                   credits := some (orZero u.credits + cfg.credits),
                   subscriptionEndDate := some (addMonths now cfg.durationMonths),
                   stripeSubscriptionId := some subId,
                   stripeCustomerId := some custId }

/-- Credit amount chosen by `handleCreditsPurchase` in
`app/api/webhook/stripe/route.ts` (both variants, lines 341-360 and 946-960)
from the session's `amount_total` in cents: 500 ↦ 5, 2000 ↦ 25, and any other
amount falls back to `Math.floor(amountPaid / 100)`. -/
def creditsForAmount (amountPaid : Int) : Int :=
  if amountPaid = 500 then 5
  else if amountPaid = 2000 then 25
  else Int.fdiv amountPaid 100

/-- `handleCreditsPurchase` of `app/api/webhook/stripe/route.ts`: adds
`creditsForAmount` to the stored balance; it throws only when the user
document is missing (guarded before the call), never for an unknown amount. -/
def handleCreditsPurchase (u : UserDoc) (amountPaid : Int) : UserDoc :=
  { u with credits := some (orZero u.credits + creditsForAmount amountPaid) }

/-- `handleSubscriptionChange` of `app/api/webhook/stripe/route.ts`
(lines 475-530): on `canceled` / `unpaid` / `incomplete_expired` the user is
downgraded to the free plan with the subscription reference and end date
cleared; on `active` the premium plan and subscription id are (re)applied;
other statuses leave the document untouched. -/
def handleSubscriptionChange (status subId : String) (u : UserDoc) : UserDoc :=
  if status = "canceled" ∨ status = "unpaid" ∨ status = "incomplete_expired" then
    { u with planType := some "free",
             stripeSubscriptionId := none,
             subscriptionEndDate := none }
  else if status = "active" then
    { u with planType := some "premium",
             stripeSubscriptionId := some subId }
  else u

end StripeV1

namespace StripeV2

/-- Plan entry of the second `getPlanConfig` in
`app/api/webhook/stripe/route.ts` (lines 543-586). -/
structure PlanConfig where
  planType : String
  credits : Int
  durationMonths : Int
  freeCredits : Int
  bonusCredits : Int
deriving Repr, DecidableEq

/-- Second `getPlanConfig` of `app/api/webhook/stripe/route.ts`
(lines 543-586): 25 / 150 / 300 credits (monthly 5+20, multiplied out over
the 1 / 6 / 12 month duration) with the same last-insertion-wins lookup. -/
def getPlanConfig (env : Env) (priceId : String) : Option PlanConfig :=
  if envSet env.annualPriceId && env.annualPriceId == some priceId then
    some ⟨"premium", 300, 12, 60, 240⟩
  else if envSet env.semiannualPriceId && env.semiannualPriceId == some priceId then
    some ⟨"premium", 150, 6, 30, 120⟩
  else if envSet env.monthlyPriceId && env.monthlyPriceId == some priceId then
    some ⟨"premium", 25, 1, 5, 20⟩
  else none

/-- Second `handleSubscriptionPurchase` of `app/api/webhook/stripe/route.ts`:
like the first, but additionally records the `lastCreditGrant` breakdown with
`date = now`.  Still no history entry. -/
def handleSubscriptionPurchase (env : Env) (priceId subId custId : String)
    (u : UserDoc) (now : Int) : Except String UserDoc :=
  match getPlanConfig env priceId with
  | none => .error "Unknown price ID"
  | some cfg =>
      .ok { u with planType := some cfg.planType,
                   credits := some (orZero u.credits + cfg.credits),
                   subscriptionEndDate := some (addMonths now cfg.durationMonths),
                   stripeSubscriptionId := some subId,
                   stripeCustomerId := some custId,
                   lastCreditGrant := some ⟨now, cfg.freeCredits, cfg.bonusCredits, cfg.credits⟩ }

end StripeV2

namespace Part005

/-- `MONTHLY_CREDITS` of the transactional webhook variant. -/
def MONTHLY_CREDITS : Int := 20

/-- `getNextCreditDate` of the transactional webhook variant:
`setDate(getDate() + 30)`, i.e. 30 days after the given date. -/
def getNextCreditDate (fromDate : Int) : Int := fromDate + 30

/-- Plan entry of `getPlanConfig` in the transactional webhook variant
(duration only; the grant amount is the fixed initial 25). -/
structure PlanConfig where
  planType : String
  durationMonths : Int
deriving Repr, DecidableEq

/-- `getPlanConfig` of the transactional webhook variant (env ids assumed
set, last-insertion-wins lookup as in the other variants). -/
def getPlanConfig (env : Env) (priceId : String) : Option PlanConfig :=
  if env.annualPriceId == some priceId then some ⟨"premium", 12⟩
  else if env.semiannualPriceId == some priceId then some ⟨"premium", 6⟩
  else if env.monthlyPriceId == some priceId then some ⟨"premium", 1⟩
  else none

/-- Subscription branch of `handleCheckoutCompleted` in the transactional
webhook variant (lines 212-264): always grants the fixed 25 initial credits;
the local `subscriptionStart` is pushed to the current end date when a
premium subscription is still running, the end date is `subscriptionStart +
durationMonths` via `setMonth`, the stored `subscriptionStart` field is reset
to `now`, and `nextCreditDate` is the local `subscriptionStart` plus 30 days.
The `initial` history entry is added with `arrayUnion`. -/
def handleSubscriptionCheckout (cfg : PlanConfig) (subId custId : String)
    (u : UserDoc) (now : Int) : UserDoc :=
  let creditsToAdd : Int := 25
  let subscriptionStartVar :=
    match u.subscriptionEndDate, u.planType with
    | some endD, some pt => if pt = "premium" ∧ now < endD then endD else now
    | _, _ => now
  { u with planType := some cfg.planType,
           credits := some (orZero u.credits + creditsToAdd),
           stripeSubscriptionId := some subId,
           stripeCustomerId := some custId,
           subscriptionStart := some now,
           subscriptionEndDate := some (addMonths subscriptionStartVar cfg.durationMonths),
           lastMonthlyCredit := some now,
           nextCreditDate := some (getNextCreditDate subscriptionStartVar),
           creditHistory := jsArrayUnion u.creditHistory [⟨now, creditsToAdd, "initial"⟩] }

/-- `handleCreditPurchase` of the transactional webhook variant: adds the
metadata credit count with `increment` and an `arrayUnion` history entry. -/
def handleCreditPurchase (u : UserDoc) (credits now : Int) : UserDoc :=
  { u with credits := some (orZero u.credits + credits),
           creditHistory := jsArrayUnion u.creditHistory [⟨now, credits, "purchased"⟩] }

/-- `handleInvoicePaid` of the transactional webhook variant (lines 297-363):
for premium users, overwrite the end date with Stripe's `current_period_end`,
then run the monthly-credit check against the originally read document:
initialise the grant bookkeeping when `lastMonthlyCredit` is missing,
otherwise grant 20 credits when `now` has reached `nextCreditDate`
(missing `nextCreditDate` compares as the epoch). -/
def handleInvoicePaid (u : UserDoc) (now periodEnd : Int) : UserDoc :=
  if u.planType = some "premium" then
    let u1 := { u with subscriptionEndDate := some periodEnd }
    match u.lastMonthlyCredit with
    | none =>
        { u1 with lastMonthlyCredit := some now,
                  nextCreditDate := some (getNextCreditDate now) }
    | some _ =>
        if u.nextCreditDate.getD 0 ≤ now then
          { u1 with credits := some (orZero u.credits + MONTHLY_CREDITS),
                    lastMonthlyCredit := some now,
                    nextCreditDate := some (getNextCreditDate now),
                    creditHistory := jsArrayUnion u.creditHistory [⟨now, MONTHLY_CREDITS, "monthly"⟩] }
        else u1
  else u

end Part005

namespace CheckCreditsRoute

/-- Core of the `POST` handler in `app/api/check-credits/route.ts`
(lines 28-61): premium users get their grant bookkeeping initialised on the
first run, and 20 credits with `lastMonthlyCredit = now` and
`nextCreditDate = now + 30` whenever `now` has reached `nextCreditDate`
(missing `nextCreditDate` compares as the epoch). -/
def checkCreditsRun (u : UserDoc) (now : Int) : UserDoc :=
  if u.planType = some "premium" then
    match u.lastMonthlyCredit with
    | none =>
        { u with lastMonthlyCredit := some now,
                 nextCreditDate := some (now + 30) }
    | some _ =>
        if u.nextCreditDate.getD 0 ≤ now then
          { u with credits := some (orZero u.credits + 20),
                   lastMonthlyCredit := some now,
                   nextCreditDate := some (now + 30),
                   creditHistory := jsArrayUnion u.creditHistory [⟨now, 20, "monthly"⟩] }
        else u
  else u

end CheckCreditsRoute

namespace UsersCheckCredits

/-- `getMonthsDifference` from `app/api/users/check-credits/route.ts`
(lines 26-33): calendar difference `(endYear - startYear) * 12 +
(endMonth - startMonth)`, ignoring the day of month. -/
def getMonthsDifference (startDate endDate : Int) : Int :=
  (getFullYear endDate - getFullYear startDate) * 12 + (getMonth endDate - getMonth startDate)

/-- The backfill entries built by `loadMissedMonthlyCredits`: one entry of 20
credits per missed month, dated `lastMonthlyCredit + i` calendar months. -/
def backfillEntries (last : Int) (months : Int) : List HistEntry :=
  (List.range months.toNat).map (fun i => ⟨addMonths last ((i : Int) + 1), 20, "monthly_backfill"⟩)

/-- `loadMissedMonthlyCredits` from `app/api/users/check-credits/route.ts`
(lines 43-113): for premium users with a recorded subscription start, count
the calendar months since the last monthly credit (defaulting to the
subscription start), grant 20 credits per month in one update, stamp
`lastMonthlyCredit = now` and `nextCreditDate = now + 30`, and `arrayUnion`
the backfill entries.  Returns `(creditsAdded, monthsProcessed, document)`. -/
def loadMissedMonthlyCredits (u : UserDoc) (now : Int) : Int × Int × UserDoc :=
  if u.planType = some "premium" then
    let lastEff := match u.lastMonthlyCredit with
                   | some t => some t
                   | none => u.subscriptionStart
    match u.subscriptionStart, lastEff with
    | some _, some last =>
        let months := getMonthsDifference last now
        if 0 < months then
          let creditsToAdd := months * 20
          (creditsToAdd, months,
            { u with credits := some (orZero u.credits + creditsToAdd),
                     lastMonthlyCredit := some now,
                     nextCreditDate := some (now + 30),
                     creditHistory := jsArrayUnion u.creditHistory (backfillEntries last months) })
        else (0, 0, u)
    | _, _ => (0, 0, u)
  else (0, 0, u)

end UsersCheckCredits

namespace SpendRace

/-- Progress of one in-flight `debitCredits` call: it has not read yet, it has
passed the balance check and still has to apply its decrement, or it has
finished with the given result. -/
inductive SpendPhase
  | start
  | pending
  | done (ok : Bool)
deriving Repr, DecidableEq

/-- One atomic step of a `debitCredits` call from `src/utils/credits.ts`
against the shared stored balance: the read-and-check step fails the call
when the read balance is below the amount, and the write step applies the
atomic `increment(-amount)` to whatever the balance is at write time (the
check and the write are separate Firestore operations, not one
transaction). -/
def spendStep (balance amount : Int) (ph : SpendPhase) : Int × SpendPhase :=
  match ph with
  | .start => if balance < amount then (balance, .done false) else (balance, .pending)
  | .pending => (balance - amount, .done true)
  | .done ok => (balance, .done ok)

/-- Run two concurrent `debitCredits` calls of amounts `a0`, `a1` under an
interleaving schedule (the list of thread ids that take the next atomic
step).  Returns the final stored balance and both call results. -/
def execSchedule (sched : List (Fin 2)) (a0 a1 balance : Int)
    (p0 p1 : SpendPhase) : Int × SpendPhase × SpendPhase :=
  match sched with
  | [] => (balance, p0, p1)
  | t :: rest =>
      if t = 0 then
        let s := spendStep balance a0 p0
        execSchedule rest a0 a1 s.1 s.2 p1
      else
        let s := spendStep balance a1 p1
        execSchedule rest a0 a1 s.1 p0 s.2

end SpendRace

/-- The ledger invariant is a decidable equality of integers. -/
instance decidableLedgerInv (u : UserDoc) : Decidable (ledgerInv u) :=
  inferInstanceAs (Decidable (orZero u.credits = sumHist u.creditHistory))

/-- Appending one entry adds its amount to the history sum. -/
theorem sumHist_append (l : List HistEntry) (e : HistEntry) :
    sumHist (l ++ [e]) = sumHist l + e.amount := by
  simp [sumHist]

/-- Every element of an `arrayUnion` result comes from the original array or
from the added batch. -/
theorem mem_of_mem_jsArrayUnion {e : HistEntry} :
    ∀ (es acc : List HistEntry), e ∈ jsArrayUnion acc es → e ∈ acc ∨ e ∈ es := by
  intro es
  induction es with
  | nil =>
      intro acc h
      exact Or.inl h
  | cons x xs ih =>
      intro acc h
      have h0 : e ∈ jsArrayUnion (if x ∈ acc then acc else acc ++ [x]) xs := by
        simpa [jsArrayUnion] using h
      rcases ih _ h0 with h1 | h1
      · by_cases hx : x ∈ acc
        · rw [if_pos hx] at h1
          exact Or.inl h1
        · rw [if_neg hx] at h1
          rcases List.mem_append.mp h1 with h2 | h2
          · exact Or.inl h2
          · simp only [List.mem_singleton] at h2
            subst h2
            exact Or.inr (List.mem_cons_self _ _)
      · exact Or.inr (List.mem_cons_of_mem _ h1)

/-- C1 (amended): the webhook pipeline performs no duplicate-event detection.
Re-delivering a subscription-checkout event re-applies its grant: from any
user document, processing the event and then processing the same event again
leaves the balance at the original value plus 50 (two 25-credit grants),
which is not the single-delivery balance. -/
theorem c1_webhook_replay_reapplies_grant (cfg : Part005.PlanConfig)
    (subId custId : String) (u : UserDoc) (t1 t2 : Int) :
    (Part005.handleSubscriptionCheckout cfg subId custId
        (Part005.handleSubscriptionCheckout cfg subId custId u t1) t2).credits
      = some (orZero u.credits + 50) ∧
    orZero u.credits + 50 ≠ orZero u.credits + 25 := by
  refine ⟨?_, by omega⟩
  show some (orZero u.credits + 25 + 25) = some (orZero u.credits + 50)
  congr 1
  omega

/-- C1 counterexample: delivering the same checkout-completed event twice
(initial delivery at day 0, provider retry at day 1) is not applied as a
no-op: the balance doubles from 25 to 50 and a second ledger entry appears. -/
theorem c1_counterexample :
    (Part005.handleSubscriptionCheckout ⟨"premium", 1⟩ "sub1" "cus1"
        { credits := some 0, planType := some "free" } 0).credits = some 25 ∧
    (Part005.handleSubscriptionCheckout ⟨"premium", 1⟩ "sub1" "cus1"
        { credits := some 0, planType := some "free" } 0).creditHistory.length = 1 ∧
    (Part005.handleSubscriptionCheckout ⟨"premium", 1⟩ "sub1" "cus1"
        (Part005.handleSubscriptionCheckout ⟨"premium", 1⟩ "sub1" "cus1"
          { credits := some 0, planType := some "free" } 0) 1).credits = some 50 ∧
    (Part005.handleSubscriptionCheckout ⟨"premium", 1⟩ "sub1" "cus1"
        (Part005.handleSubscriptionCheckout ⟨"premium", 1⟩ "sub1" "cus1"
          { credits := some 0, planType := some "free" } 0) 1).creditHistory.length = 2 := by
  decide

/-- C2 (amended): the operations that do append history entries preserve the
ledger invariant `balance = sum(history)`: a `deductCredits` spend and a
`grantMonthlyCredits` grant each change the cached balance by exactly the
amount of the one entry they append (and leave the document unchanged when
they reject). -/
theorem c2_history_appending_ops_preserve_ledger (u : UserDoc) (a now : Int)
    (h : ledgerInv u) :
    ledgerInv (CreditSystem.deductCredits u a now).2 ∧
    ledgerInv (CreditSystem.grantMonthlyCredits u now).2 := by
  unfold ledgerInv at h
  constructor
  · unfold CreditSystem.deductCredits
    split
    · exact h
    · show orZero (some (orZero u.credits - a)) =
        sumHist (u.creditHistory ++ [⟨now, -a, "usage"⟩])
      rw [sumHist_append]
      simp only [orZero, Option.getD_some] at h ⊢
      omega
  · unfold CreditSystem.grantMonthlyCredits
    split
    · show orZero (some (orZero u.credits + _)) =
        sumHist (u.creditHistory ++ [⟨now, _, "monthly_grant"⟩])
      rw [sumHist_append]
      simp only [orZero, Option.getD_some] at h ⊢
      omega
    · exact h

/-- C2 witness: a document satisfying the invariant still satisfies it after
a spend of 2 and after a monthly grant. -/
theorem c2_witness :
    ledgerInv { credits := some 7, creditHistory := [⟨0, 7, "seed"⟩] } ∧
    (ledgerInv (CreditSystem.deductCredits
        { credits := some 7, creditHistory := [⟨0, 7, "seed"⟩] } 2 40).2 ∧
     ledgerInv (CreditSystem.grantMonthlyCredits
        { credits := some 7, creditHistory := [⟨0, 7, "seed"⟩] } 40).2) :=
  ⟨by decide, c2_history_appending_ops_preserve_ledger
      { credits := some 7, creditHistory := [⟨0, 7, "seed"⟩] } 2 40 (by decide)⟩

/-- C2 counterexample: `handleSubscriptionPurchase` of the Stripe webhook
route adds the plan's 100 credits without recording any history entry, so a
document that satisfied `balance = sum(history)` no longer does. -/
theorem c2_counterexample :
    ledgerInv { credits := some 0 } ∧
    (exceptGetD (StripeV1.handleSubscriptionPurchase { monthlyPriceId := some "pm" }
        "pm" "sub1" "cus1" { credits := some 0 } 0) { credits := some 0 }).credits = some 100 ∧
    sumHist (exceptGetD (StripeV1.handleSubscriptionPurchase { monthlyPriceId := some "pm" }
        "pm" "sub1" "cus1" { credits := some 0 } 0) { credits := some 0 }).creditHistory = 0 ∧
    ¬ ledgerInv (exceptGetD (StripeV1.handleSubscriptionPurchase { monthlyPriceId := some "pm" }
        "pm" "sub1" "cus1" { credits := some 0 } 0) { credits := some 0 }) := by
  decide

/-- C3: both debit implementations reject a spend that exceeds the current
balance without touching the document, and otherwise decrement the balance by
exactly the requested amount; starting from a non-negative balance, no single
debit makes the balance negative. -/
theorem c3_debit_rejects_or_decrements_exactly (u : UserDoc) (a now : Int)
    (h : 0 ≤ orZero u.credits) :
    (orZero u.credits < a →
        CreditsUtil.debitCredits (some u) a = (false, some u) ∧
        CreditSystem.deductCredits u a now = (false, u)) ∧
    (a ≤ orZero u.credits →
        (CreditsUtil.debitCredits (some u) a).1 = true ∧
        (CreditsUtil.debitCredits (some u) a).2 =
          some { u with credits := some (orZero u.credits - a) } ∧
        (CreditSystem.deductCredits u a now).1 = true ∧
        (CreditSystem.deductCredits u a now).2.credits = some (orZero u.credits - a)) ∧
    (∀ v, (CreditsUtil.debitCredits (some u) a).2 = some v → 0 ≤ orZero v.credits) ∧
    0 ≤ orZero (CreditSystem.deductCredits u a now).2.credits := by
  have heval : CreditsUtil.debitCredits (some u) a =
      if orZero u.credits < a then (false, some u)
      else (true, some { u with credits := some (orZero u.credits - a) }) := rfl
  by_cases hlt : orZero u.credits < a
  · refine ⟨fun _ => ?_, fun hle => absurd hlt (by omega), ?_, ?_⟩
    · constructor
      · rw [heval, if_pos hlt]
      · unfold CreditSystem.deductCredits
        rw [if_pos hlt]
    · intro v hv
      rw [heval, if_pos hlt] at hv
      injection hv with h2
      rw [← h2]
      exact h
    · unfold CreditSystem.deductCredits
      rw [if_pos hlt]
      exact h
  · refine ⟨fun hgt => absurd hgt hlt, fun _ => ?_, ?_, ?_⟩
    · refine ⟨?_, ?_, ?_, ?_⟩
      · rw [heval, if_neg hlt]
      · rw [heval, if_neg hlt]
      · unfold CreditSystem.deductCredits
        rw [if_neg hlt]
      · unfold CreditSystem.deductCredits
        rw [if_neg hlt]
    · intro v hv
      rw [heval, if_neg hlt] at hv
      injection hv with h2
      rw [← h2]
      show (0 : Int) ≤ orZero (some (orZero u.credits - a))
      simp only [orZero, Option.getD_some] at h hlt ⊢
      omega
    · unfold CreditSystem.deductCredits
      rw [if_neg hlt]
      show (0 : Int) ≤ orZero (some (orZero u.credits - a))
      simp only [orZero, Option.getD_some] at h hlt ⊢
      omega

/-- C3 witness: with balance 3, a spend of 2 succeeds and leaves balance 1 in
both implementations, and with balance 1 a spend of 2 is rejected. -/
theorem c3_witness :
    (CreditsUtil.debitCredits (some { credits := some 3 }) 2).1 = true ∧
    (CreditSystem.deductCredits { credits := some 3 } 2 0).2.credits = some 1 ∧
    (CreditsUtil.debitCredits (some { credits := some 1 }) 2).1 = false := by
  refine ⟨?_, ?_, ?_⟩
  · exact ((c3_debit_rejects_or_decrements_exactly { credits := some 3 } 2 0
      (by decide)).2.1 (by decide)).1
  · exact ((c3_debit_rejects_or_decrements_exactly { credits := some 3 } 2 0
      (by decide)).2.1 (by decide)).2.2.2
  · have h := ((c3_debit_rejects_or_decrements_exactly { credits := some 1 } 2 0
      (by decide)).1 (by decide)).1
    rw [h]

/-- Every backfill entry produced by the catch-up run carries 20 credits. -/
theorem backfillEntries_amount {e : HistEntry} (last m : Int)
    (h : e ∈ UsersCheckCredits.backfillEntries last m) : e.amount = 20 := by
  unfold UsersCheckCredits.backfillEntries at h
  obtain ⟨i, _, rfl⟩ := List.mem_map.mp h
  rfl

/-- C4 (amended): one catch-up run for a PREMIUM account with a recorded
subscription start computes the months owed as the calendar-month difference
`(endYear - startYear) * 12 + (endMonth - startMonth)` between the last
monthly credit and now (not a 30-day floor), grants 20 credits per owed month
(not 25), appends one 20-credit entry per month, and stamps
`lastMonthlyCredit = now` (not the last grant plus whole cadences) and
`nextCreditDate = now + 30` days. -/
theorem c4_catchup_calendar_months_20_credits (u : UserDoc) (now last : Int)
    (hp : u.planType = some "premium")
    (hs : u.subscriptionStart.isSome)
    (hl : u.lastMonthlyCredit = some last)
    (hm : 0 < UsersCheckCredits.getMonthsDifference last now) :
    (UsersCheckCredits.loadMissedMonthlyCredits u now).1 =
      UsersCheckCredits.getMonthsDifference last now * 20 ∧
    (UsersCheckCredits.loadMissedMonthlyCredits u now).2.1 =
      UsersCheckCredits.getMonthsDifference last now ∧
    (UsersCheckCredits.loadMissedMonthlyCredits u now).2.2.credits =
      some (orZero u.credits + UsersCheckCredits.getMonthsDifference last now * 20) ∧
    (UsersCheckCredits.loadMissedMonthlyCredits u now).2.2.lastMonthlyCredit = some now ∧
    (UsersCheckCredits.loadMissedMonthlyCredits u now).2.2.nextCreditDate = some (now + 30) ∧
    (∀ e ∈ (UsersCheckCredits.loadMissedMonthlyCredits u now).2.2.creditHistory,
        e ∈ u.creditHistory ∨ e.amount = 20) := by
  obtain ⟨s, hs2⟩ := Option.isSome_iff_exists.mp hs
  have hrun : UsersCheckCredits.loadMissedMonthlyCredits u now =
      (UsersCheckCredits.getMonthsDifference last now * 20,
       UsersCheckCredits.getMonthsDifference last now,
       { u with credits := some (orZero u.credits +
                   UsersCheckCredits.getMonthsDifference last now * 20),
                lastMonthlyCredit := some now,
                nextCreditDate := some (now + 30),
                creditHistory := jsArrayUnion u.creditHistory
                  (UsersCheckCredits.backfillEntries last
                    (UsersCheckCredits.getMonthsDifference last now)) }) := by
    unfold UsersCheckCredits.loadMissedMonthlyCredits
    rw [hp, hl, hs2]
    simp [hm]
  rw [hrun]
  refine ⟨rfl, rfl, rfl, rfl, rfl, ?_⟩
  intro e he
  rcases mem_of_mem_jsArrayUnion _ _ he with h1 | h1
  · exact Or.inl h1
  · exact Or.inr (backfillEntries_amount _ _ h1)

/-- C4 witness: a premium account whose last grant was 2024-01-01, checked on
2024-03-20, owes two calendar months and receives 40 credits. -/
theorem c4_witness :
    (({ credits := some 0, planType := some "premium",
        subscriptionStart := some (daysFromCivil 2024 1 1),
        lastMonthlyCredit := some (daysFromCivil 2024 1 1) } : UserDoc).planType
      = some "premium") ∧
    (UsersCheckCredits.loadMissedMonthlyCredits
        { credits := some 0, planType := some "premium",
          subscriptionStart := some (daysFromCivil 2024 1 1),
          lastMonthlyCredit := some (daysFromCivil 2024 1 1) }
        (daysFromCivil 2024 3 20)).1 =
      UsersCheckCredits.getMonthsDifference (daysFromCivil 2024 1 1)
        (daysFromCivil 2024 3 20) * 20 :=
  ⟨rfl, (c4_catchup_calendar_months_20_credits
      { credits := some 0, planType := some "premium",
        subscriptionStart := some (daysFromCivil 2024 1 1),
        lastMonthlyCredit := some (daysFromCivil 2024 1 1) }
      (daysFromCivil 2024 3 20) (daysFromCivil 2024 1 1)
      rfl (by decide) rfl (by decide)).1⟩

/-- C4 counterexample: after exactly 95 days of inactivity (2024-01-01 to
2024-04-05) the catch-up run emits 3 grants of 20 credits each — not 3 grants
of 25 — so the balance rises by 60 rather than 75, and the last-grant
timestamp jumps to now (95 days later), not forward by exactly 90 days. -/
theorem c4_counterexample :
    daysFromCivil 2024 4 5 - daysFromCivil 2024 1 1 = 95 ∧
    (UsersCheckCredits.loadMissedMonthlyCredits
        { credits := some 0, planType := some "premium",
          subscriptionStart := some (daysFromCivil 2024 1 1),
          lastMonthlyCredit := some (daysFromCivil 2024 1 1) }
        (daysFromCivil 2024 4 5)).2.1 = 3 ∧
    (UsersCheckCredits.loadMissedMonthlyCredits
        { credits := some 0, planType := some "premium",
          subscriptionStart := some (daysFromCivil 2024 1 1),
          lastMonthlyCredit := some (daysFromCivil 2024 1 1) }
        (daysFromCivil 2024 4 5)).1 = 60 ∧
    (60 : Int) ≠ 75 ∧
    (∀ e ∈ (UsersCheckCredits.loadMissedMonthlyCredits
        { credits := some 0, planType := some "premium",
          subscriptionStart := some (daysFromCivil 2024 1 1),
          lastMonthlyCredit := some (daysFromCivil 2024 1 1) }
        (daysFromCivil 2024 4 5)).2.2.creditHistory, e.amount = 20 ∧ e.amount ≠ 25) ∧
    (UsersCheckCredits.loadMissedMonthlyCredits
        { credits := some 0, planType := some "premium",
          subscriptionStart := some (daysFromCivil 2024 1 1),
          lastMonthlyCredit := some (daysFromCivil 2024 1 1) }
        (daysFromCivil 2024 4 5)).2.2.lastMonthlyCredit = some (daysFromCivil 2024 4 5) ∧
    daysFromCivil 2024 4 5 ≠ daysFromCivil 2024 1 1 + 90 := by
  decide

/-- C5 (amended): every plan in the proper-credit plan table carries the full
front-loaded amount `25 * durationMonths` (25 / 150 / 300), and a
subscription checkout grants that whole amount at once — only for the monthly
plan does the initial grant equal the 25-credit monthly amount.  The account
does become premium with `subscriptionEnd = now + durationMonths` (calendar
months) and a grant record dated `now`. -/
theorem c5_initial_grant_frontloads_full_duration (env : Env)
    (priceId subId custId : String) (u : UserDoc) (now : Int)
    (cfg : StripeV2.PlanConfig)
    (hc : StripeV2.getPlanConfig env priceId = some cfg) :
    cfg.credits = 25 * cfg.durationMonths ∧
    StripeV2.handleSubscriptionPurchase env priceId subId custId u now =
      .ok { u with planType := some "premium",
                   credits := some (orZero u.credits + 25 * cfg.durationMonths),
                   subscriptionEndDate := some (addMonths now cfg.durationMonths),
                   stripeSubscriptionId := some subId,
                   stripeCustomerId := some custId,
                   lastCreditGrant := some ⟨now, cfg.freeCredits, cfg.bonusCredits, cfg.credits⟩ } := by
  have hcases : cfg = ⟨"premium", 300, 12, 60, 240⟩ ∨ cfg = ⟨"premium", 150, 6, 30, 120⟩ ∨
      cfg = ⟨"premium", 25, 1, 5, 20⟩ := by
    unfold StripeV2.getPlanConfig at hc
    split_ifs at hc <;> simp_all
  have hrun : StripeV2.handleSubscriptionPurchase env priceId subId custId u now =
      .ok { u with planType := some cfg.planType,
                   credits := some (orZero u.credits + cfg.credits),
                   subscriptionEndDate := some (addMonths now cfg.durationMonths),
                   stripeSubscriptionId := some subId,
                   stripeCustomerId := some custId,
                   lastCreditGrant := some ⟨now, cfg.freeCredits, cfg.bonusCredits, cfg.credits⟩ } := by
    unfold StripeV2.handleSubscriptionPurchase
    rw [hc]
  rcases hcases with rfl | rfl | rfl <;>
    exact ⟨by norm_num, by rw [hrun]; norm_num⟩

/-- C5 witness: with all three price ids configured, the semi-annual price id
resolves to the 150-credit configuration, whose grant is the front-loaded
`25 * 6`. -/
theorem c5_witness :
    StripeV2.getPlanConfig ⟨some "pm", some "ps", some "pa"⟩ "ps" =
      some ⟨"premium", 150, 6, 30, 120⟩ ∧
    (⟨"premium", 150, 6, 30, 120⟩ : StripeV2.PlanConfig).credits =
      25 * (⟨"premium", 150, 6, 30, 120⟩ : StripeV2.PlanConfig).durationMonths :=
  ⟨by decide, (c5_initial_grant_frontloads_full_duration
      ⟨some "pm", some "ps", some "pa"⟩ "ps" "sub1" "cus1" { credits := some 0 } 0
      ⟨"premium", 150, 6, 30, 120⟩ (by decide)).1⟩

/-- C5 counterexample: a semi-annual subscription checkout on a fresh FREE
account credits the front-loaded six-month total of 150, not the plan's
25-credit monthly amount. -/
theorem c5_counterexample :
    (exceptGetD (StripeV2.handleSubscriptionPurchase ⟨some "pm", some "ps", some "pa"⟩
        "ps" "sub1" "cus1" { credits := some 0, planType := some "free" } 0)
      { credits := some 0 }).credits = some 150 ∧
    (150 : Int) ≠ 25 := by
  decide

/-- C6 (amended): the credits-purchase handler maps a paid amount of 500
cents to 5 credits and 2000 cents to 25 credits, and for every other amount
falls back to `floor(amountPaid / 100)` credits; it never rejects an
unrecognized amount (the handler is total on existing users). -/
theorem c6_credits_purchase_uses_dollar_fallback (u : UserDoc) (amountPaid : Int) :
    (StripeV1.handleCreditsPurchase u amountPaid).credits =
      some (orZero u.credits + StripeV1.creditsForAmount amountPaid) ∧
    StripeV1.creditsForAmount 500 = 5 ∧
    StripeV1.creditsForAmount 2000 = 25 ∧
    (amountPaid ≠ 500 → amountPaid ≠ 2000 →
      StripeV1.creditsForAmount amountPaid = Int.fdiv amountPaid 100) := by
  refine ⟨rfl, by decide, by decide, fun h5 h20 => ?_⟩
  unfold StripeV1.creditsForAmount
  rw [if_neg h5, if_neg h20]

/-- C6 witness: 700 cents matches no package and yields `floor(700/100) = 7`
credits instead of a rejection. -/
theorem c6_witness :
    (StripeV1.handleCreditsPurchase { credits := some 0 } 700).credits =
      some (orZero (some 0) + StripeV1.creditsForAmount 700) ∧
    (700 : Int) ≠ 500 ∧ (700 : Int) ≠ 2000 ∧
    StripeV1.creditsForAmount 700 = Int.fdiv 700 100 :=
  ⟨(c6_credits_purchase_uses_dollar_fallback { credits := some 0 } 700).1,
   by decide, by decide,
   (c6_credits_purchase_uses_dollar_fallback { credits := some 0 } 700).2.2.2
     (by decide) (by decide)⟩

/-- C6 counterexample: a paid amount of 700 cents matches neither defined
package (500 or 2000 cents), yet the handler does not reject the event: it
defaults to 7 credits. -/
theorem c6_counterexample :
    (700 : Int) ≠ 500 ∧ (700 : Int) ≠ 2000 ∧
    (StripeV1.handleCreditsPurchase { credits := some 0 } 700).credits = some 7 := by
  decide

/-- C7: a `canceled`, `unpaid` or `incomplete_expired` subscription event on
a premium account downgrades the plan tier to free and clears the stored
subscription reference and end date, while the credit balance and the credit
history are left exactly unchanged (no clawback). -/
theorem c7_cancel_downgrades_without_clawback (u : UserDoc) (status subId : String)
    (hs : status = "canceled" ∨ status = "unpaid" ∨ status = "incomplete_expired")
    (hp : u.planType = some "premium") :
    (StripeV1.handleSubscriptionChange status subId u).planType = some "free" ∧
    (StripeV1.handleSubscriptionChange status subId u).stripeSubscriptionId = none ∧
    (StripeV1.handleSubscriptionChange status subId u).subscriptionEndDate = none ∧
    (StripeV1.handleSubscriptionChange status subId u).credits = u.credits ∧
    (StripeV1.handleSubscriptionChange status subId u).creditHistory = u.creditHistory := by
  have _hp := hp
  unfold StripeV1.handleSubscriptionChange
  rw [if_pos hs]
  exact ⟨rfl, rfl, rfl, rfl, rfl⟩

/-- C7 witness: a concrete `canceled` event on a premium account with 40
credits leaves the balance at 40 while downgrading the plan. -/
theorem c7_witness :
    (StripeV1.handleSubscriptionChange "canceled" "sub1"
        { credits := some 40, planType := some "premium",
          stripeSubscriptionId := some "sub1", subscriptionEndDate := some 100 }).planType
      = some "free" ∧
    (StripeV1.handleSubscriptionChange "canceled" "sub1"
        { credits := some 40, planType := some "premium",
          stripeSubscriptionId := some "sub1", subscriptionEndDate := some 100 }).credits
      = some 40 := by
  have h := c7_cancel_downgrades_without_clawback
      { credits := some 40, planType := some "premium",
        stripeSubscriptionId := some "sub1", subscriptionEndDate := some 100 }
      "canceled" "sub1" (Or.inl rfl) rfl
  exact ⟨h.1, h.2.2.2.1⟩

/-- C8 (amended): the `check-credits` route on its own never moves
`nextCreditDate` backward — once grant bookkeeping exists, an invocation
either leaves the date unchanged or advances it to `now + 30 ≥` its previous
value — but the webhook checkout/invoice handlers are not monotone (see the
counterexample, where a later checkout rewinds `nextCreditDate`). -/
theorem c8_check_credits_route_is_monotone (u : UserDoc) (now d : Int)
    (hl : u.lastMonthlyCredit.isSome)
    (hd : u.nextCreditDate = some d) :
    ∃ d2, (CheckCreditsRoute.checkCreditsRun u now).nextCreditDate = some d2 ∧ d ≤ d2 := by
  obtain ⟨l, hl2⟩ := Option.isSome_iff_exists.mp hl
  by_cases hp : u.planType = some "premium"
  · by_cases hdue : u.nextCreditDate.getD 0 ≤ now
    · refine ⟨now + 30, ?_, ?_⟩
      · simp [CheckCreditsRoute.checkCreditsRun, hl2, hp, hdue]
      · rw [hd] at hdue
        simp only [Option.getD_some] at hdue
        omega
    · rw [hd] at hdue
      simp only [Option.getD_some] at hdue
      refine ⟨d, ?_, le_refl d⟩
      simp [CheckCreditsRoute.checkCreditsRun, hl2, hp, hd, hdue]
  · refine ⟨d, ?_, le_refl d⟩
    simp [CheckCreditsRoute.checkCreditsRun, hp, hd]

/-- C8 witness: a due premium account with `nextCreditDate = 20` checked at
day 50 gets a new `nextCreditDate` no earlier than 20. -/
theorem c8_witness :
    (({ credits := some 0, planType := some "premium", lastMonthlyCredit := some 0,
        nextCreditDate := some 20 } : UserDoc).lastMonthlyCredit).isSome = true ∧
    ∃ d2, (CheckCreditsRoute.checkCreditsRun
        { credits := some 0, planType := some "premium", lastMonthlyCredit := some 0,
          nextCreditDate := some 20 } 50).nextCreditDate = some d2 ∧ (20 : Int) ≤ d2 :=
  ⟨by decide, c8_check_credits_route_is_monotone
      { credits := some 0, planType := some "premium", lastMonthlyCredit := some 0,
        nextCreditDate := some 20 } 50 20 (by decide) rfl⟩

/-- C8 counterexample: an explicit sequence of webhook invocations moves the
next-grant-due timestamp backward.  An annual checkout on 2024-01-01 followed
by a monthly checkout one day later pushes `nextCreditDate` to 2025-01-31;
after an invoice event resets the subscription end to day 40, a further
monthly checkout at day 50 rewinds `nextCreditDate` to day 80. -/
theorem c8_counterexample :
    (Part005.handleSubscriptionCheckout ⟨"premium", 1⟩ "s2" "c2"
        (Part005.handleSubscriptionCheckout ⟨"premium", 12⟩ "s1" "c1"
          { credits := some 5, planType := some "free" } (daysFromCivil 2024 1 1))
        (daysFromCivil 2024 1 1 + 1)).nextCreditDate
      = some (daysFromCivil 2025 1 1 + 30) ∧
    (Part005.handleSubscriptionCheckout ⟨"premium", 1⟩ "s3" "c3"
        (Part005.handleInvoicePaid
          (Part005.handleSubscriptionCheckout ⟨"premium", 1⟩ "s2" "c2"
            (Part005.handleSubscriptionCheckout ⟨"premium", 12⟩ "s1" "c1"
              { credits := some 5, planType := some "free" } (daysFromCivil 2024 1 1))
            (daysFromCivil 2024 1 1 + 1))
          (daysFromCivil 2024 1 1 + 2) (daysFromCivil 2024 1 1 + 40))
        (daysFromCivil 2024 1 1 + 50)).nextCreditDate
      = some (daysFromCivil 2024 1 1 + 80) ∧
    daysFromCivil 2024 1 1 + 80 < daysFromCivil 2025 1 1 + 30 := by
  decide

/-- Serial execution of the two-step spend model agrees with `debitCredits`
run against a document whose stored balance is `b`. -/
theorem spendModel_matches_debitCredits (b a : Int) :
    ((SpendRace.execSchedule [0, 0] a 0 b .start .start).1 = b ∧
        CreditsUtil.debitCredits (some { credits := some b }) a =
          (false, some { credits := some b })) ∨
    ((SpendRace.execSchedule [0, 0] a 0 b .start .start).1 = b - a ∧
        (CreditsUtil.debitCredits (some { credits := some b }) a).1 = true ∧
        (CreditsUtil.debitCredits (some { credits := some b }) a).2 =
          some { credits := some (b - a) }) := by
  have heval : CreditsUtil.debitCredits (some { credits := some b }) a =
      if b < a then (false, some { credits := some b })
      else (true, some { credits := some (b - a) }) := by
    show (if orZero (some b) < a then _ else _) = _
    have hz : orZero (some b) = b := rfl
    rw [hz]
  by_cases hlt : b < a
  · left
    constructor
    · simp [SpendRace.execSchedule, SpendRace.spendStep, hlt]
    · rw [heval, if_pos hlt]
  · right
    refine ⟨by simp [SpendRace.execSchedule, SpendRace.spendStep, hlt], ?_, ?_⟩
    · rw [heval, if_neg hlt]
    · rw [heval, if_neg hlt]

/-- C9 (amended): when the two spend calls are serialized (one completes both
of its steps before the other starts), exactly one succeeds and the final
balance stays non-negative; the check and the decrement of `debitCredits` are
however two separate store operations, so an overlapping interleaving can let
both calls pass the check and drive the balance negative (see the
counterexample). -/
theorem c9_serialized_spends_exactly_one_succeeds (b a0 a1 : Int)
    (_hb : 0 ≤ b) (h0 : a0 ≤ b) (_h1 : a1 ≤ b) (hsum : b < a0 + a1) :
    SpendRace.execSchedule [0, 0, 1, 1] a0 a1 b .start .start =
      (b - a0, .done true, .done false) ∧
    0 ≤ b - a0 := by
  refine ⟨?_, by omega⟩
  have hn0 : ¬ b < a0 := by omega
  have hn1 : b - a0 < a1 := by omega
  simp [SpendRace.execSchedule, SpendRace.spendStep, hn0, hn1]

/-- C9 witness: balance 3 and two serialized spends of 2 give one success,
one failure and final balance 1. -/
theorem c9_witness :
    SpendRace.execSchedule [0, 0, 1, 1] 2 2 3 .start .start =
      (1, .done true, .done false) ∧
    (0 : Int) ≤ 1 := by
  have h := c9_serialized_spends_exactly_one_succeeds 3 2 2
    (by decide) (by decide) (by decide) (by decide)
  exact ⟨h.1, h.2⟩

/-- C9 counterexample: with balance 3 and two concurrent spends of 2, the
interleaving in which both calls perform their balance check before either
decrement lets both succeed and leaves the stored balance at -1: the two
calls can both succeed and the final balance can go negative. -/
theorem c9_counterexample :
    SpendRace.execSchedule [0, 1, 0, 1] 2 2 3 .start .start =
      (-1, .done true, .done true) ∧
    (-1 : Int) < 0 := by
  decide

/-- C10: when the stored document has no `subscriptionEndDate`,
`getUserCredits` substitutes 2100-01-01 as the end date, so
`isSubscriptionActive` reports every non-free account as active (for any
current time before 2100-01-01) even though no end date was ever recorded. -/
theorem c10_missing_end_date_defaults_to_2100 (u : UserDoc) (now : Int)
    (hend : u.subscriptionEndDate = none)
    (hplan : jsOrS u.planType "free" ≠ "free")
    (hnow : now < CreditsUtil.date2100) :
    CreditsUtil.getUserCredits (some u) =
      some ⟨orZero u.credits, jsOrS u.planType "free", CreditsUtil.date2100⟩ ∧
    CreditsUtil.isSubscriptionActive (some u) now = true := by
  have hget : CreditsUtil.getUserCredits (some u) =
      some ⟨orZero u.credits, jsOrS u.planType "free", CreditsUtil.date2100⟩ := by
    simp [CreditsUtil.getUserCredits, hend]
  refine ⟨hget, ?_⟩
  unfold CreditsUtil.isSubscriptionActive
  rw [hget]
  simp [hplan, hnow]

/-- C10 witness: a premium account with no stored end date reads back the
2100-01-01 default and counts as active in 2026. -/
theorem c10_witness :
    CreditsUtil.getUserCredits (some { credits := some 2, planType := some "premium" }) =
      some ⟨2, "premium", CreditsUtil.date2100⟩ ∧
    CreditsUtil.isSubscriptionActive (some { credits := some 2, planType := some "premium" })
      (daysFromCivil 2026 1 1) = true :=
  c10_missing_end_date_defaults_to_2100
    { credits := some 2, planType := some "premium" } (daysFromCivil 2026 1 1)
    rfl (by decide) (by decide)

end Letter








